/-
Verification of the tenant-scoping and migration layer of the
auto-transport-logistics repository (Go + PostgreSQL, SQLC query files).

The SQL statements in sql/queries/*.sql are shallowly embedded as pure
functions over lists of rows; the golang-migrate engine used by
internal/database/migrations.go is modelled by a small state machine over
a persisted migration record; cmd/server/main.go is embedded as the list
of startup actions it performs.
-/
import Mathlib

namespace AutoTransport

/-- User roles, from the `user_role` enum in
migrations/000001_initial_schema.up.sql (lines 17-20). -/
inductive UserRole where
  | admin
  | user
deriving DecidableEq, Repr

/-- Shipment statuses, from the `shipment_status` enum in
migrations/000001_initial_schema.up.sql (lines 73-79). -/
inductive ShipmentStatus where
  | pending
  | assigned
  | in_transit
  | delivered
  | cancelled
deriving DecidableEq, Repr

/-- The per-request tenant identity (spec 3: TenantIdentity =
\x7borganization_id, user_id, role\x7d).  UUIDs are modelled as naturals. -/
structure TenantIdentity where
  organization_id : Nat
  user_id : Nat
  role : UserRole
deriving DecidableEq, Repr

/-- A row of the `users` table (schema lines 23-34). -/
structure UserRow where
  id : Nat
  organization_id : Nat
  email : String
  password_hash : String
  first_name : Option String
  last_name : Option String
  role : UserRole
  active : Bool
  created_at : Nat
  updated_at : Nat
deriving DecidableEq, Repr

/-- A row of the `customers` table (schema lines 37-52). -/
structure CustomerRow where
  id : Nat
  organization_id : Nat
  name : String
  contact_name : Option String
  email : Option String
  phone : Option String
  address_line1 : Option String
  address_line2 : Option String
  city : Option String
  state : Option String
  zip_code : Option String
  country : Option String
  created_at : Nat
  updated_at : Nat
deriving DecidableEq, Repr

/-- A row of the `carriers` table (schema lines 55-70). -/
structure CarrierRow where
  id : Nat
  organization_id : Nat
  company_name : String
  contact_name : Option String
  email : Option String
  phone : Option String
  mc_number : Option String
  dot_number : Option String
  insurance_provider : Option String
  insurance_policy_number : Option String
  insurance_expiry : Option Nat
  active : Bool
  created_at : Nat
  updated_at : Nat
deriving DecidableEq, Repr

/-- A row of the `shipments` table (schema lines 89-125).  Dates are
modelled as naturals, DECIMAL prices as integers (of cents). -/
structure ShipmentRow where
  id : Nat
  organization_id : Nat
  customer_id : Nat
  carrier_id : Option Nat
  status : ShipmentStatus
  pickup_address_line1 : String
  pickup_address_line2 : Option String
  pickup_city : String
  pickup_state : String
  pickup_zip_code : String
  pickup_country : Option String
  pickup_date_requested : Option Nat
  pickup_date_actual : Option Nat
  delivery_address_line1 : String
  delivery_address_line2 : Option String
  delivery_city : String
  delivery_state : String
  delivery_zip_code : String
  delivery_country : Option String
  delivery_date_estimated : Option Nat
  delivery_date_actual : Option Nat
  price_quoted : Option Int
  price_actual : Option Int
  notes : Option String
  created_at : Nat
  updated_at : Nat
deriving DecidableEq, Repr

/- ## users.sql -/

/-- The row-transformation of a SQL UPDATE: apply `f` to every row
satisfying the WHERE predicate `p`, leave all other rows unchanged. -/
def updateWhere {α : Type} (db : List α) (p : α → Bool) (f : α → α) : List α :=
  db.map (fun r => if p r then f r else r)

/-- GetUser (sql/queries/users.sql lines 1-3):
`SELECT * FROM users WHERE id = $1`.
Note: the predicate filters on `id` only; the statement takes no
`organization_id` parameter. -/
def GetUser (users : List UserRow) (id : Nat) : Option UserRow :=
  users.find? (fun u => u.id == id)

/-- GetUserByEmail (users.sql lines 5-7):
`SELECT * FROM users WHERE email = $1`. -/
def GetUserByEmail (users : List UserRow) (email : String) : Option UserRow :=
  users.find? (fun u => u.email == email)

/-- UpdateUser (users.sql lines 23-32): COALESCE partial update of
email, first_name, last_name, role, active, `WHERE id = $1`.  The
`updated_at` column is set by the `update_users_updated_at` trigger
(schema lines 179-180), modelled by the `now` parameter. -/
def UpdateUser (users : List UserRow) (id : Nat) (email : Option String)
    (first_name : Option String) (last_name : Option String)
    (role : Option UserRole) (active : Option Bool) (now : Nat) :
    List UserRow × Option UserRow :=
  let db := updateWhere users (fun u => u.id == id) (fun u =>
    { u with
        email := email.getD u.email
        first_name := match first_name with
          | some v => some v
          | none => u.first_name
        last_name := match last_name with
          | some v => some v
          | none => u.last_name
        role := role.getD u.role
        active := active.getD u.active
        updated_at := now })
  (db, db.find? (fun u => u.id == id))

/-- UpdateUserPassword (users.sql lines 34-38):
`UPDATE users SET password_hash = $2 WHERE id = $1 RETURNING *`. -/
def UpdateUserPassword (users : List UserRow) (id : Nat)
    (password_hash : String) (now : Nat) : List UserRow × Option UserRow :=
  let db := updateWhere users (fun u => u.id == id) (fun u =>
    { u with password_hash := password_hash, updated_at := now })
  (db, db.find? (fun u => u.id == id))

/-- ListUsersByOrganization (users.sql lines 40-43):
`SELECT * FROM users WHERE organization_id = $1` (ordering elided). -/
def ListUsersByOrganization (users : List UserRow) (orgId : Nat) :
    List UserRow :=
  users.filter (fun u => u.organization_id == orgId)

/-- DeactivateUser (users.sql lines 45-49):
`UPDATE users SET active = false WHERE id = $1 RETURNING *`. -/
def DeactivateUser (users : List UserRow) (id : Nat) (now : Nat) :
    List UserRow × Option UserRow :=
  let db := updateWhere users (fun u => u.id == id) (fun u =>
    { u with active := false, updated_at := now })
  (db, db.find? (fun u => u.id == id))

/-- ActivateUser (users.sql lines 51-55):
`UPDATE users SET active = true WHERE id = $1 RETURNING *`. -/
def ActivateUser (users : List UserRow) (id : Nat) (now : Nat) :
    List UserRow × Option UserRow :=
  let db := updateWhere users (fun u => u.id == id) (fun u =>
    { u with active := true, updated_at := now })
  (db, db.find? (fun u => u.id == id))

/- ## customers.sql -/

/-- GetCustomer (customers.sql lines 7-9):
`SELECT * FROM customers WHERE id = $1 AND organization_id = $2`. -/
def GetCustomer (customers : List CustomerRow) (id orgId : Nat) :
    Option CustomerRow :=
  customers.find? (fun c => c.id == id && c.organization_id == orgId)

/-- CreateCustomer (customers.sql lines 15-31): INSERT of
organization_id ($1) and ten content columns, RETURNING the new row.
`id` defaults to a fresh UUID and the timestamp columns default to NOW()
(schema lines 38, 50-51), modelled by `newId` and `now`. -/
def CreateCustomer (customers : List CustomerRow) (newId : Nat)
    (organization_id : Nat) (name : String) (contact_name : Option String)
    (email : Option String) (phone : Option String)
    (address_line1 : Option String) (address_line2 : Option String)
    (city : Option String) (state : Option String)
    (zip_code : Option String) (country : Option String) (now : Nat) :
    CustomerRow × List CustomerRow :=
  let row : CustomerRow :=
    { id := newId
      organization_id := organization_id
      name := name
      contact_name := contact_name
      email := email
      phone := phone
      address_line1 := address_line1
      address_line2 := address_line2
      city := city
      state := state
      zip_code := zip_code
      country := country
      created_at := now
      updated_at := now }
  (row, customers ++ [row])

/-- UpdateCustomer (customers.sql lines 33-47): COALESCE partial update
of the ten content columns, `WHERE id = $1 AND organization_id = $2`. -/
def UpdateCustomer (customers : List CustomerRow) (id orgId : Nat)
    (name : Option String) (contact_name : Option String)
    (email : Option String) (phone : Option String)
    (address_line1 : Option String) (address_line2 : Option String)
    (city : Option String) (state : Option String)
    (zip_code : Option String) (country : Option String) (now : Nat) :
    List CustomerRow × Option CustomerRow :=
  let db := updateWhere customers (fun c => c.id == id && c.organization_id == orgId) (fun c =>
    { c with
        name := name.getD c.name
        contact_name := match contact_name with
          | some v => some v
          | none => c.contact_name
        email := match email with
          | some v => some v
          | none => c.email
        phone := match phone with
          | some v => some v
          | none => c.phone
        address_line1 := match address_line1 with
          | some v => some v
          | none => c.address_line1
        address_line2 := match address_line2 with
          | some v => some v
          | none => c.address_line2
        city := match city with
          | some v => some v
          | none => c.city
        state := match state with
          | some v => some v
          | none => c.state
        zip_code := match zip_code with
          | some v => some v
          | none => c.zip_code
        country := match country with
          | some v => some v
          | none => c.country
        updated_at := now })
  (db, db.find? (fun c => c.id == id && c.organization_id == orgId))

/- ## carriers.sql -/

/-- GetCarrier (carriers.sql lines 12-14):
`SELECT * FROM carriers WHERE id = $1 AND organization_id = $2`. -/
def GetCarrier (carriers : List CarrierRow) (id orgId : Nat) :
    Option CarrierRow :=
  carriers.find? (fun ca => ca.id == id && ca.organization_id == orgId)

/-- UpdateCarrier (carriers.sql lines 34-48): COALESCE partial update
of the ten content columns, `WHERE id = $1 AND organization_id = $2`. -/
def UpdateCarrier (carriers : List CarrierRow) (id orgId : Nat)
    (company_name : Option String) (contact_name : Option String)
    (email : Option String) (phone : Option String)
    (mc_number : Option String) (dot_number : Option String)
    (insurance_provider : Option String)
    (insurance_policy_number : Option String)
    (insurance_expiry : Option Nat) (active : Option Bool) (now : Nat) :
    List CarrierRow × Option CarrierRow :=
  let db := updateWhere carriers (fun ca => ca.id == id && ca.organization_id == orgId) (fun ca =>
    { ca with
        company_name := company_name.getD ca.company_name
        contact_name := match contact_name with
          | some v => some v
          | none => ca.contact_name
        email := match email with
          | some v => some v
          | none => ca.email
        phone := match phone with
          | some v => some v
          | none => ca.phone
        mc_number := match mc_number with
          | some v => some v
          | none => ca.mc_number
        dot_number := match dot_number with
          | some v => some v
          | none => ca.dot_number
        insurance_provider := match insurance_provider with
          | some v => some v
          | none => ca.insurance_provider
        insurance_policy_number := match insurance_policy_number with
          | some v => some v
          | none => ca.insurance_policy_number
        insurance_expiry := match insurance_expiry with
          | some v => some v
          | none => ca.insurance_expiry
        active := active.getD ca.active
        updated_at := now })
  (db, db.find? (fun ca => ca.id == id && ca.organization_id == orgId))

/-- DeactivateCarrier (carriers.sql lines 50-54):
`UPDATE carriers SET active = false WHERE id = $1 AND organization_id = $2`. -/
def DeactivateCarrier (carriers : List CarrierRow) (id orgId : Nat)
    (now : Nat) : List CarrierRow × Option CarrierRow :=
  let db := updateWhere carriers (fun ca => ca.id == id && ca.organization_id == orgId) (fun ca =>
    { ca with active := false, updated_at := now })
  (db, db.find? (fun ca => ca.id == id && ca.organization_id == orgId))

/-- ActivateCarrier (carriers.sql lines 56-60):
`UPDATE carriers SET active = true WHERE id = $1 AND organization_id = $2`. -/
def ActivateCarrier (carriers : List CarrierRow) (id orgId : Nat)
    (now : Nat) : List CarrierRow × Option CarrierRow :=
  let db := updateWhere carriers (fun ca => ca.id == id && ca.organization_id == orgId) (fun ca =>
    { ca with active := true, updated_at := now })
  (db, db.find? (fun ca => ca.id == id && ca.organization_id == orgId))

/- ## shipments.sql -/

/-- GetShipment (sql/queries/shipments.sql lines 13-25): the shipment is
selected by `s.id = $1 AND s.organization_id = $2`; the LEFT JOINs on
customers and carriers contribute display columns, modelled here as the
joined rows. -/
def GetShipment (shipments : List ShipmentRow) (customers : List CustomerRow)
    (carriers : List CarrierRow) (id orgId : Nat) :
    Option (ShipmentRow × Option CustomerRow × Option CarrierRow) :=
  (shipments.find? (fun s => s.id == id && s.organization_id == orgId)).map
    (fun s =>
      (s, customers.find? (fun c => c.id == s.customer_id),
        match s.carrier_id with
        | some cid => carriers.find? (fun ca => ca.id == cid)
        | none => none))

/-- CreateShipment (sql/queries/shipments.sql lines 27-46): INSERT of
organization_id ($1), customer_id ($2) and twelve further columns.  The
column list omits `status`, `carrier_id`, the `*_address_line2`,
`*_country`, `*_date_actual` and `price_actual` columns, so the schema
defaults apply (schema lines 89-125): `status` defaults to `'pending'`,
`pickup_country`/`delivery_country` to `'USA'`, the rest to NULL. -/
def CreateShipment (shipments : List ShipmentRow) (newId : Nat)
    (organization_id : Nat) (customer_id : Nat)
    (pickup_address_line1 : String) (pickup_city : String)
    (pickup_state : String) (pickup_zip_code : String)
    (delivery_address_line1 : String) (delivery_city : String)
    (delivery_state : String) (delivery_zip_code : String)
    (pickup_date_requested : Option Nat)
    (delivery_date_estimated : Option Nat) (price_quoted : Option Int)
    (notes : Option String) (now : Nat) : ShipmentRow × List ShipmentRow :=
  let row : ShipmentRow :=
    { id := newId
      organization_id := organization_id
      customer_id := customer_id
      carrier_id := none
      status := ShipmentStatus.pending
      pickup_address_line1 := pickup_address_line1
      pickup_address_line2 := none
      pickup_city := pickup_city
      pickup_state := pickup_state
      pickup_zip_code := pickup_zip_code
      pickup_country := some "USA"
      pickup_date_requested := pickup_date_requested
      pickup_date_actual := none
      delivery_address_line1 := delivery_address_line1
      delivery_address_line2 := none
      delivery_city := delivery_city
      delivery_state := delivery_state
      delivery_zip_code := delivery_zip_code
      delivery_country := some "USA"
      delivery_date_estimated := delivery_date_estimated
      delivery_date_actual := none
      price_quoted := price_quoted
      price_actual := none
      notes := notes
      created_at := now
      updated_at := now }
  (row, shipments ++ [row])

/-- UpdateShipment (shipments.sql lines 48-58): COALESCE partial update
of carrier_id, status, actual dates, price_actual, notes,
`WHERE id = $1 AND organization_id = $2`. -/
def UpdateShipment (shipments : List ShipmentRow) (id orgId : Nat)
    (carrier_id : Option Nat) (status : Option ShipmentStatus)
    (pickup_date_actual : Option Nat) (delivery_date_actual : Option Nat)
    (price_actual : Option Int) (notes : Option String) (now : Nat) :
    List ShipmentRow × Option ShipmentRow :=
  let db := updateWhere shipments (fun s => s.id == id && s.organization_id == orgId) (fun s =>
    { s with
        carrier_id := match carrier_id with
          | some v => some v
          | none => s.carrier_id
        status := status.getD s.status
        pickup_date_actual := match pickup_date_actual with
          | some v => some v
          | none => s.pickup_date_actual
        delivery_date_actual := match delivery_date_actual with
          | some v => some v
          | none => s.delivery_date_actual
        price_actual := match price_actual with
          | some v => some v
          | none => s.price_actual
        notes := match notes with
          | some v => some v
          | none => s.notes
        updated_at := now })
  (db, db.find? (fun s => s.id == id && s.organization_id == orgId))

/-- UpdateShipmentStatus (shipments.sql lines 60-64):
`UPDATE shipments SET status = $3 WHERE id = $1 AND organization_id = $2
RETURNING *`.  The supplied status is stored unconditionally. -/
def UpdateShipmentStatus (shipments : List ShipmentRow) (id orgId : Nat)
    (status : ShipmentStatus) (now : Nat) :
    List ShipmentRow × Option ShipmentRow :=
  let db := updateWhere shipments (fun s => s.id == id && s.organization_id == orgId) (fun s =>
    { s with status := status, updated_at := now })
  (db, db.find? (fun s => s.id == id && s.organization_id == orgId))

/-- AssignCarrier (shipments.sql lines 66-72):
`UPDATE shipments SET carrier_id = $3, status = 'assigned'
WHERE id = $1 AND organization_id = $2 RETURNING *`. -/
def AssignCarrier (shipments : List ShipmentRow) (id orgId : Nat)
    (carrier_id : Option Nat) (now : Nat) :
    List ShipmentRow × Option ShipmentRow :=
  let db := updateWhere shipments (fun s => s.id == id && s.organization_id == orgId) (fun s =>
    { s with
        carrier_id := carrier_id
        status := ShipmentStatus.assigned
        updated_at := now })
  (db, db.find? (fun s => s.id == id && s.organization_id == orgId))

/- ## Foreign-key enforcement on shipment writes

The schema declares `customer_id UUID NOT NULL REFERENCES customers(id)`
and `carrier_id UUID REFERENCES carriers(id)` (schema lines 92-93).
PostgreSQL checks only that the referenced id EXISTS in the referenced
table; it never compares organization_id columns.  No application-level
validation of the referenced row's tenant exists anywhere in the
repository (the handlers call the generated statements directly), so the
FK check below is the only guard on these writes. -/

/-- Database-level errors surfaced by a write. -/
inductive DbErr where
  | foreignKeyViolation
deriving DecidableEq, Repr

/-- The FK existence check performed by PostgreSQL for
`customer_id REFERENCES customers(id)` (schema line 92): the id must
exist in `customers`, under any organization. -/
def customerFkOk (customers : List CustomerRow) (customer_id : Nat) : Bool :=
  customers.any (fun c => c.id == customer_id)

/-- The FK existence check for `carrier_id REFERENCES carriers(id)`
(schema line 93); a NULL carrier_id passes vacuously. -/
def carrierFkOk (carriers : List CarrierRow) (carrier_id : Option Nat) : Bool :=
  match carrier_id with
  | some cid => carriers.any (fun ca => ca.id == cid)
  | none => true

/-- Executing `CreateShipment` against the database: the INSERT commits
whenever the `customer_id` FK existence check passes — the only check the
schema imposes on the reference. -/
def CreateShipmentExec (shipments : List ShipmentRow)
    (customers : List CustomerRow) (newId : Nat) (organization_id : Nat)
    (customer_id : Nat) (pickup_address_line1 : String)
    (pickup_city : String) (pickup_state : String)
    (pickup_zip_code : String) (delivery_address_line1 : String)
    (delivery_city : String) (delivery_state : String)
    (delivery_zip_code : String) (pickup_date_requested : Option Nat)
    (delivery_date_estimated : Option Nat) (price_quoted : Option Int)
    (notes : Option String) (now : Nat) :
    Except DbErr (ShipmentRow × List ShipmentRow) :=
  if customerFkOk customers customer_id then
    .ok (CreateShipment shipments newId organization_id customer_id
      pickup_address_line1 pickup_city pickup_state pickup_zip_code
      delivery_address_line1 delivery_city delivery_state
      delivery_zip_code pickup_date_requested delivery_date_estimated
      price_quoted notes now)
  else
    .error DbErr.foreignKeyViolation

/-- Executing `AssignCarrier` against the database: the UPDATE commits
whenever the `carrier_id` FK existence check passes. -/
def AssignCarrierExec (shipments : List ShipmentRow)
    (carriers : List CarrierRow) (id orgId : Nat)
    (carrier_id : Option Nat) (now : Nat) :
    Except DbErr (List ShipmentRow × Option ShipmentRow) :=
  if carrierFkOk carriers carrier_id then
    .ok (AssignCarrier shipments id orgId carrier_id now)
  else
    .error DbErr.foreignKeyViolation

/- ## Scoped create accessors -/

/-- A client-supplied payload for creating a customer.  Following spec
4.3, the payload may carry an `organization_id` field (a forged tenant),
which the accessor must ignore. -/
structure CreateCustomerInput where
  organization_id : Option Nat
  name : String
  contact_name : Option String
  email : Option String
  phone : Option String
  address_line1 : Option String
  address_line2 : Option String
  city : Option String
  state : Option String
  zip_code : Option String
  country : Option String
deriving DecidableEq, Repr

/-- A client-supplied payload for creating a shipment, possibly carrying
a forged `organization_id` field. -/
structure CreateShipmentInput where
  organization_id : Option Nat
  customer_id : Nat
  pickup_address_line1 : String
  pickup_city : String
  pickup_state : String
  pickup_zip_code : String
  delivery_address_line1 : String
  delivery_city : String
  delivery_state : String
  delivery_zip_code : String
  pickup_date_requested : Option Nat
  delivery_date_estimated : Option Nat
  price_quoted : Option Int
  notes : Option String
deriving DecidableEq, Repr

/-- Modelled from the spec: the handler/accessor layer
(`internal/handlers`, listed in the repository's project structure but
not present in the source tree) that threads the resolved TenantIdentity
into the generated statements.  Per spec 4.3, `create` passes
`identity.organization_id` as the statement's organization_id parameter
($1 of `CreateCustomer`); any organization_id field in the payload is
never read. -/
def createCustomerScoped (identity : TenantIdentity)
    (input : CreateCustomerInput) (newId now : Nat)
    (customers : List CustomerRow) : CustomerRow × List CustomerRow :=
  CreateCustomer customers newId identity.organization_id input.name
    input.contact_name input.email input.phone input.address_line1
    input.address_line2 input.city input.state input.zip_code
    input.country now

/-- Modelled from the spec: the handler/accessor layer for shipment
creation, threading `identity.organization_id` into $1 of
`CreateShipment` and never reading a payload organization_id. -/
def createShipmentScoped (identity : TenantIdentity)
    (input : CreateShipmentInput) (newId now : Nat)
    (shipments : List ShipmentRow) : ShipmentRow × List ShipmentRow :=
  CreateShipment shipments newId identity.organization_id
    input.customer_id input.pickup_address_line1 input.pickup_city
    input.pickup_state input.pickup_zip_code input.delivery_address_line1
    input.delivery_city input.delivery_state input.delivery_zip_code
    input.pickup_date_requested input.delivery_date_estimated
    input.price_quoted input.notes now

/- ## internal/database/migrations.go

The Go code delegates to the golang-migrate engine
(`migrate.NewWithSourceInstance("iofs", ...)`).  The engine's persisted
state is the schema_migrations record \x7bversion, dirty\x7d (spec 3,
MigrationRecord); its documented behaviour, modelled below:
`Up` fails with ErrDirty if the record is dirty, applies every embedded
script whose version exceeds the current version in ascending order and
clears dirty, and fails with ErrNoChange when nothing is pending;
`Version` returns (0, false, ErrNilVersion) when no record exists. -/

/-- The persisted migration record \x7bversion, dirty\x7d. -/
structure MigrationRecord where
  version : Nat
  dirty : Bool
deriving DecidableEq, Repr

/-- Database state seen by the migration engine: the migration record
(absent when no migration has ever been applied) and the schema, as the
list of applied script versions. -/
structure MigState where
  record : Option MigrationRecord
  schema : List Nat
deriving DecidableEq, Repr

/-- Errors of the golang-migrate engine used by migrations.go. -/
inductive MigrateErr where
  | errNoChange
  | errDirty (version : Nat)
  | errNilVersion
deriving DecidableEq, Repr

/-- Errors returned by the wrapper functions in migrations.go (the Go
code wraps the engine error with fmt.Errorf). -/
inductive GoMigErr where
  | failedToRun (e : MigrateErr)
  | failedToGetVersion (e : MigrateErr)
deriving DecidableEq, Repr

/-- The version the engine reads from the record; golang-migrate treats
an absent record as version 0 with all scripts pending. -/
def MigState.currentVersion (st : MigState) : Nat :=
  match st.record with
  | some rec => rec.version
  | none => 0

/-- Whether the persisted record is marked dirty. -/
def MigState.isDirty (st : MigState) : Bool :=
  match st.record with
  | some rec => rec.dirty
  | none => false

/-- The golang-migrate `m.Up()` step: refuse if dirty; compute the
pending scripts (version greater than current); ErrNoChange if none;
otherwise apply them all, record the highest applied version and clear
dirty.  (The iofs source orders scripts ascending, so the last applied
version is their maximum.) -/
def migrateUp (scripts : List Nat) (st : MigState) :
    Except MigrateErr MigState :=
  if st.isDirty then
    .error (MigrateErr.errDirty st.currentVersion)
  else
    let pending := scripts.filter (fun v => st.currentVersion < v)
    if pending.isEmpty then
      .error MigrateErr.errNoChange
    else
      .ok { record := some { version := pending.foldl Nat.max st.currentVersion
                             dirty := false }
            schema := st.schema ++ pending }

/-- RunMigrations (internal/database/migrations.go lines 16-33): calls
`m.Up()` and treats `migrate.ErrNoChange` as success
(`if err := m.Up(); err != nil && err != migrate.ErrNoChange`); any other
engine error is wrapped and returned, leaving the state untouched. -/
def RunMigrations (scripts : List Nat) (st : MigState) :
    Except GoMigErr MigState :=
  match migrateUp scripts st with
  | .ok st' => .ok st'
  | .error MigrateErr.errNoChange => .ok st
  | .error e => .error (GoMigErr.failedToRun e)

/-- The golang-migrate `m.Version()` call: on an absent record the engine
returns (0, false, ErrNilVersion); otherwise the record's version and
dirty flag with no error. -/
def migrateVersion (st : MigState) : Nat × Bool × Option MigrateErr :=
  match st.record with
  | none => (0, false, some MigrateErr.errNilVersion)
  | some rec => (rec.version, rec.dirty, none)

/-- MigrationVersion (migrations.go lines 56-74):
`version, dirty, err := m.Version(); if err != nil && err !=
migrate.ErrNilVersion \x7b return 0, false, wrapped \x7d; return version,
dirty, nil` — the nil-version error is swallowed and the engine's
(0, false) pair is returned as success. -/
def MigrationVersion (st : MigState) : Except GoMigErr (Nat × Bool) :=
  let (version, dirty, err) := migrateVersion st
  match err with
  | some e =>
      if e = MigrateErr.errNilVersion then .ok (version, dirty)
      else .error (GoMigErr.failedToGetVersion e)
  | none => .ok (version, dirty)

/-- The embedded migration scripts of this repository: the single pair
000001_initial_schema.\x7bup,down\x7d.sql under
internal/database/migrations/. -/
def embeddedScripts : List Nat := [1]

/- ## cmd/server/main.go -/

/-- getEnv (main.go lines 103-108): return the environment value when
non-empty, otherwise the fallback.  The environment is a total map, as
os.Getenv returns "" for unset keys. -/
def getEnv (env : String → String) (key fallback : String) : String :=
  if env key ≠ "" then env key else fallback

/-- The actions a server entry point can perform at startup.  The
`runMigrationsStep` constructor stands for a call to
`database.RunMigrations` (the function exported by
internal/database/migrations.go). -/
inductive StartupStep where
  | setupRouter
  | serveStaticDir (dir : String)
  | registerRoute (pattern : String)
  | startHTTPServer (port : String)
  | awaitShutdownSignal
  | runMigrationsStep (databaseURL : String)
deriving DecidableEq, Repr

/-- Whether a startup step invokes the embedded migration runner. -/
def StartupStep.isMigrationRun : StartupStep → Bool
  | StartupStep.runMigrationsStep _ => true
  | _ => false

/-- main (cmd/server/main.go lines 14-61), as the ordered list of
startup actions it performs: read PORT, build the mux, mount the static
file server, register the two routes, start the HTTP server, then block
awaiting SIGINT/SIGTERM for graceful shutdown.  No other calls occur in
the function body. -/
def mainStartupSteps (env : String → String) : List StartupStep :=
  [ StartupStep.setupRouter
  , StartupStep.serveStaticDir "static"
  , StartupStep.registerRoute "GET /"
  , StartupStep.registerRoute "GET /health"
  , StartupStep.startHTTPServer (getEnv env "PORT" "8080")
  , StartupStep.awaitShutdownSignal ]

/- ## Concrete fixtures (two organizations, one row of each kind) -/

/-- A user row owned by organization 1. -/
def userUnderOrgA : UserRow :=
  { id := 10
    organization_id := 1
    email := "alice@org-a.example"
    password_hash := "hashA"
    first_name := some "Alice"
    last_name := none
    role := UserRole.user
    active := true
    created_at := 0
    updated_at := 0 }

/-- A customer row owned by organization 1. -/
def customerUnderOrgA : CustomerRow :=
  { id := 20
    organization_id := 1
    name := "Customer A"
    contact_name := none
    email := some "ca@org-a.example"
    phone := none
    address_line1 := none
    address_line2 := none
    city := none
    state := none
    zip_code := none
    country := some "USA"
    created_at := 0
    updated_at := 0 }

/-- A customer row owned by organization 2. -/
def customerUnderOrgB : CustomerRow :=
  { customerUnderOrgA with id := 21, organization_id := 2, name := "Customer B" }

/-- A carrier row owned by organization 1. -/
def carrierUnderOrgA : CarrierRow :=
  { id := 30
    organization_id := 1
    company_name := "Carrier A"
    contact_name := none
    email := none
    phone := none
    mc_number := none
    dot_number := none
    insurance_provider := none
    insurance_policy_number := none
    insurance_expiry := none
    active := true
    created_at := 0
    updated_at := 0 }

/-- A carrier row owned by organization 2. -/
def carrierUnderOrgB : CarrierRow :=
  { carrierUnderOrgA with id := 31, organization_id := 2, company_name := "Carrier B" }

/-- A pending shipment owned by organization 1, referencing its own
customer. -/
def shipmentUnderOrgA : ShipmentRow :=
  { id := 100
    organization_id := 1
    customer_id := 20
    carrier_id := none
    status := ShipmentStatus.pending
    pickup_address_line1 := "1 Pickup St"
    pickup_address_line2 := none
    pickup_city := "Springfield"
    pickup_state := "IL"
    pickup_zip_code := "62701"
    pickup_country := some "USA"
    pickup_date_requested := none
    pickup_date_actual := none
    delivery_address_line1 := "2 Delivery Ave"
    delivery_address_line2 := none
    delivery_city := "Portland"
    delivery_state := "OR"
    delivery_zip_code := "97201"
    delivery_country := some "USA"
    delivery_date_estimated := none
    delivery_date_actual := none
    price_quoted := some 120000
    price_actual := none
    notes := none
    created_at := 0
    updated_at := 0 }

/-- The same shipment after a carrier of its own organization was
assigned: status `assigned`. -/
def shipmentAssignedOrgA : ShipmentRow :=
  { shipmentUnderOrgA with carrier_id := some 30, status := ShipmentStatus.assigned }

/-- An identity belonging to organization 2. -/
def identityOrgB : TenantIdentity :=
  { organization_id := 2, user_id := 99, role := UserRole.admin }

/-- A fresh database: no migration record, empty schema. -/
def freshMigState : MigState := { record := none, schema := [] }

/-- The state after applying the single embedded script. -/
def appliedMigState : MigState :=
  { record := some { version := 1, dirty := false }, schema := [1] }

/-- A state whose migration record is marked dirty at version 1. -/
def dirtyMigState : MigState :=
  { record := some { version := 1, dirty := true }, schema := [1] }

/- ## Helper lemmas -/

/-- An UPDATE whose SET list leaves a column untouched preserves that
column across the whole table. -/
theorem updateWhere_map_eq {α β : Type} (db : List α) (p : α → Bool)
    (f : α → α) (g : α → β) (h : ∀ r, g (f r) = g r) :
    (updateWhere db p f).map g = db.map g := by
  induction db with
  | nil => rfl
  | cons a t ih =>
    simp only [updateWhere, List.map_cons] at ih ⊢
    rw [ih]
    by_cases hp : p a
    · simp [hp, h]
    · simp [hp]

/-- When the updating function preserves the WHERE predicate, the row
produced by `RETURNING` is the updated image of the row the predicate
selected. -/
theorem find?_updateWhere {α : Type} (db : List α) (p : α → Bool)
    (f : α → α) (hp : ∀ r, p (f r) = p r) :
    (updateWhere db p f).find? p = (db.find? p).map f := by
  induction db with
  | nil => rfl
  | cons a t ih =>
    simp only [updateWhere, List.map_cons] at ih ⊢
    by_cases h : p a
    · have hfa : p (f a) = true := by rw [hp a]; exact h
      rw [List.find?_cons_of_pos _ (by simp [h, hfa]), List.find?_cons_of_pos _ h]
      simp [h]
    · rw [List.find?_cons_of_neg _ (by simp [h]), List.find?_cons_of_neg _ (by simp [h])]
      exact ih

/-- The initial accumulator bounds a maximum fold from below. -/
theorem le_foldl_max_init : ∀ (l : List Nat) (a : Nat), a ≤ l.foldl Nat.max a := by
  intro l
  induction l with
  | nil => intro a; exact Nat.le_refl a
  | cons x t ih =>
    intro a
    exact Nat.le_trans (Nat.le_max_left a x) (ih (Nat.max a x))

/-- Every member of a list bounds a maximum fold over it from below. -/
theorem le_foldl_max_of_mem :
    ∀ (l : List Nat) (a v : Nat), v ∈ l → v ≤ l.foldl Nat.max a := by
  intro l
  induction l with
  | nil => intro a v h; cases h
  | cons x t ih =>
    intro a v h
    rcases List.mem_cons.mp h with h' | h'
    · subst h'
      exact Nat.le_trans (Nat.le_max_right a v) (le_foldl_max_init t (Nat.max a v))
    · exact ih (Nat.max a x) v h'

/- ## Claim theorems -/

/-- C1: the claim states that every single-row read on a tenant-owned
table carries the conjunct `organization_id = identity.organization_id`,
so a cross-tenant getById returns NotFound for every entity kind
including User.  Evaluating the code at the failing input: `GetUser`
(users.sql lines 1-3) filters on id alone — it has no organization_id
parameter — so the user row owned by organization 1 is returned to the
organization-2 identity, while the customer/carrier/shipment reads, which
do carry the conjunct, correctly return nothing for that identity. -/
theorem getUser_unscoped_cross_tenant_leak :
    GetUser [userUnderOrgA] 10 = some userUnderOrgA ∧
    userUnderOrgA.organization_id ≠ identityOrgB.organization_id ∧
    GetCustomer [customerUnderOrgA] 20 identityOrgB.organization_id = none ∧
    GetCarrier [carrierUnderOrgA] 30 identityOrgB.organization_id = none ∧
    GetShipment [shipmentUnderOrgA] [customerUnderOrgA] [carrierUnderOrgA]
      100 identityOrgB.organization_id = none := by
  refine ⟨rfl, by decide, rfl, rfl, rfl⟩

/-- C2: the claim states that creating or updating a shipment whose
customer_id or carrier_id belongs to a different organization fails with
CrossTenantReference and commits nothing.  Evaluating the code at the
failing inputs: an identity of organization 1 inserts a shipment
referencing customer 21 (owned by organization 2) and assigns carrier 31
(owned by organization 2) to its own shipment; both writes commit — the
only check on the references is the FK existence check, which never
compares organization_id columns, and no same-tenant validation exists in
the repository. -/
theorem shipment_writes_commit_cross_tenant_references :
    ((CreateShipmentExec [] [customerUnderOrgB] 101 1 21
        "1 Pickup St" "Springfield" "IL" "62701"
        "2 Delivery Ave" "Portland" "OR" "97201"
        none none none none 0).toOption.map
      (fun x => (x.1.organization_id, x.1.customer_id))
        = some (1, 21)) ∧
    customerUnderOrgB.organization_id = 2 ∧
    ((AssignCarrierExec [shipmentUnderOrgA] [carrierUnderOrgB] 100 1
        (some 31) 0).toOption.map
      (fun x => x.2.map (fun r => (r.organization_id, r.carrier_id, r.status)))
        = some (some (1, some 31, ShipmentStatus.assigned))) ∧
    carrierUnderOrgB.organization_id = 2 :=
  ⟨rfl, rfl, rfl, rfl⟩

/-- C3: for every identity and every create input — including inputs
carrying a forged organization_id field — the persisted row's
organization_id is `identity.organization_id`: the insert statements
write their $1 parameter into the organization_id column and the
accessor layer supplies `identity.organization_id` there, never a
payload field. -/
theorem create_stores_identity_organization :
    ∀ (identity : TenantIdentity) (cin : CreateCustomerInput)
      (shin : CreateShipmentInput) (newId now : Nat)
      (customers : List CustomerRow) (shipments : List ShipmentRow),
      (createCustomerScoped identity cin newId now customers).1.organization_id
          = identity.organization_id ∧
      (createShipmentScoped identity shin newId now shipments).1.organization_id
          = identity.organization_id :=
  fun _ _ _ _ _ _ _ => ⟨rfl, rfl⟩

/-- C9: every shipment created through `CreateShipment` has status
`pending`: the INSERT column list (shipments.sql lines 27-46) omits the
status column, so the schema default `'pending'` (schema line 94)
applies, for every identity and every input. -/
theorem createShipment_status_always_pending :
    ∀ (shipments : List ShipmentRow) (newId orgId custId : Nat)
      (pa1 pc ps pz da1 dc ds dz : String)
      (pdr dde : Option Nat) (pq : Option Int) (nts : Option String)
      (now : Nat),
      (CreateShipment shipments newId orgId custId pa1 pc ps pz
          da1 dc ds dz pdr dde pq nts now).1.status
        = ShipmentStatus.pending := by
  intros; rfl

/-- C10: on a database with no recorded migration version, the
golang-migrate engine reports ErrNilVersion with (0, false);
`MigrationVersion` (migrations.go lines 56-74) swallows exactly that
error and returns version 0, dirty=false, no error. -/
theorem migrationVersion_nil_maps_to_zero_clean :
    ∀ schema : List Nat,
      MigrationVersion { record := none, schema := schema }
        = Except.ok (0, false) :=
  fun _ => rfl

/-- C8: the claim states that main invokes the embedded migration runner
before serving traffic.  Evaluating the code: the startup sequence of
cmd/server/main.go consists of router setup, static file mounting, two
route registrations, starting the HTTP server and awaiting a shutdown
signal — it contains no call to `database.RunMigrations`, for any
environment. -/
theorem main_startup_never_invokes_migrations :
    ∀ env : String → String,
      (mainStartupSteps env).all
        (fun s => ! StartupStep.isMigrationRun s) = true :=
  fun _ => rfl

/-- C4: no update path modifies organization_id: across UpdateCustomer,
UpdateCarrier, DeactivateCarrier, ActivateCarrier, UpdateShipment,
UpdateShipmentStatus, AssignCarrier, UpdateUser, UpdateUserPassword,
DeactivateUser and ActivateUser, the organization_id column of every row
of the table is unchanged — none of their SET lists mentions
organization_id. -/
theorem update_ops_preserve_organization_id :
    (∀ (customers : List CustomerRow) (id orgId : Nat)
        (name contact_name email phone address_line1 address_line2 city
          state zip_code country : Option String) (now : Nat),
        (UpdateCustomer customers id orgId name contact_name email phone
            address_line1 address_line2 city state zip_code country
            now).1.map CustomerRow.organization_id
          = customers.map CustomerRow.organization_id) ∧
    (∀ (carriers : List CarrierRow) (id orgId : Nat)
        (company_name contact_name email phone mc_number dot_number
          insurance_provider insurance_policy_number : Option String)
        (insurance_expiry : Option Nat) (active : Option Bool) (now : Nat),
        (UpdateCarrier carriers id orgId company_name contact_name email
            phone mc_number dot_number insurance_provider
            insurance_policy_number insurance_expiry active
            now).1.map CarrierRow.organization_id
          = carriers.map CarrierRow.organization_id) ∧
    (∀ (carriers : List CarrierRow) (id orgId now : Nat),
        (DeactivateCarrier carriers id orgId now).1.map
            CarrierRow.organization_id
          = carriers.map CarrierRow.organization_id) ∧
    (∀ (carriers : List CarrierRow) (id orgId now : Nat),
        (ActivateCarrier carriers id orgId now).1.map
            CarrierRow.organization_id
          = carriers.map CarrierRow.organization_id) ∧
    (∀ (shipments : List ShipmentRow) (id orgId : Nat)
        (carrier_id : Option Nat) (status : Option ShipmentStatus)
        (pickup_date_actual delivery_date_actual : Option Nat)
        (price_actual : Option Int) (notes : Option String) (now : Nat),
        (UpdateShipment shipments id orgId carrier_id status
            pickup_date_actual delivery_date_actual price_actual notes
            now).1.map ShipmentRow.organization_id
          = shipments.map ShipmentRow.organization_id) ∧
    (∀ (shipments : List ShipmentRow) (id orgId : Nat)
        (status : ShipmentStatus) (now : Nat),
        (UpdateShipmentStatus shipments id orgId status now).1.map
            ShipmentRow.organization_id
          = shipments.map ShipmentRow.organization_id) ∧
    (∀ (shipments : List ShipmentRow) (id orgId : Nat)
        (carrier_id : Option Nat) (now : Nat),
        (AssignCarrier shipments id orgId carrier_id now).1.map
            ShipmentRow.organization_id
          = shipments.map ShipmentRow.organization_id) ∧
    (∀ (users : List UserRow) (id : Nat)
        (email first_name last_name : Option String)
        (role : Option UserRole) (active : Option Bool) (now : Nat),
        (UpdateUser users id email first_name last_name role active
            now).1.map UserRow.organization_id
          = users.map UserRow.organization_id) ∧
    (∀ (users : List UserRow) (id : Nat) (password_hash : String)
        (now : Nat),
        (UpdateUserPassword users id password_hash now).1.map
            UserRow.organization_id
          = users.map UserRow.organization_id) ∧
    (∀ (users : List UserRow) (id now : Nat),
        (DeactivateUser users id now).1.map UserRow.organization_id
          = users.map UserRow.organization_id) ∧
    (∀ (users : List UserRow) (id now : Nat),
        (ActivateUser users id now).1.map UserRow.organization_id
          = users.map UserRow.organization_id) := by
  refine ⟨?_, ?_, ?_, ?_, ?_, ?_, ?_, ?_, ?_, ?_, ?_⟩ <;>
    · intros
      exact updateWhere_map_eq _ _ _ _ (fun r => rfl)

/-- C5 counterexample: the claim states that once a shipment is assigned
no sequence of updates returns it to pending; a single
`UpdateShipmentStatus` call on an assigned shipment stores 'pending'. -/
theorem updateShipmentStatus_assigned_back_to_pending :
    shipmentAssignedOrgA.status = ShipmentStatus.assigned ∧
    (UpdateShipmentStatus [shipmentAssignedOrgA] 100 1
        ShipmentStatus.pending 5).2.map ShipmentRow.status
      = some ShipmentStatus.pending :=
  ⟨rfl, rfl⟩

/-- C5 (amended): the status enumeration is
\x7bpending, assigned, in_transit, delivered, cancelled\x7d, but no
forward-only progression is enforced: `UpdateShipmentStatus` stores
exactly the caller-supplied status whatever the row's previous status, so
an assigned (or later) shipment can be returned to pending by one call. -/
theorem updateShipmentStatus_sets_supplied_status :
    ∀ (shipments : List ShipmentRow) (id orgId : Nat)
      (status : ShipmentStatus) (now : Nat) (r : ShipmentRow),
      (UpdateShipmentStatus shipments id orgId status now).2 = some r →
      r.status = status := by
  intro shipments id orgId status now r h
  have h2 : (updateWhere shipments
      (fun s => s.id == id && s.organization_id == orgId)
      (fun s => { s with status := status, updated_at := now })).find?
        (fun s => s.id == id && s.organization_id == orgId) = some r := h
  rw [find?_updateWhere shipments
    (fun s => s.id == id && s.organization_id == orgId)
    (fun s => { s with status := status, updated_at := now })
    (fun s => rfl)] at h2
  rcases Option.map_eq_some'.mp h2 with ⟨s, _, rfl⟩
  rfl

/-- The row produced by updating the fixture shipment to in_transit. -/
def shipmentInTransitRow : ShipmentRow :=
  { shipmentUnderOrgA with status := ShipmentStatus.in_transit, updated_at := 7 }

/-- C5 witness: the amended theorem applied at a concrete update. -/
theorem updateShipmentStatus_sets_supplied_status_witness :
    ((UpdateShipmentStatus [shipmentUnderOrgA] 100 1
        ShipmentStatus.in_transit 7).2 = some shipmentInTransitRow) ∧
    shipmentInTransitRow.status = ShipmentStatus.in_transit :=
  ⟨rfl, updateShipmentStatus_sets_supplied_status [shipmentUnderOrgA] 100 1
      ShipmentStatus.in_transit 7 shipmentInTransitRow rfl⟩

/-- After a successful `Up`, the recorded version bounds every embedded
script, so a further `Up` reports ErrNoChange. -/
theorem migrateUp_at_latest (scripts : List Nat) (cur : Nat)
    (sch : List Nat) :
    migrateUp scripts
        { record := some
            { version := (scripts.filter (fun v => cur < v)).foldl
                Nat.max cur
              dirty := false }
          schema := sch }
      = Except.error MigrateErr.errNoChange := by
  have hempty : scripts.filter
      (fun v => ((scripts.filter (fun v => cur < v)).foldl Nat.max cur)
        < v) = [] := by
    apply List.filter_eq_nil_iff.mpr
    intro v hv
    simp only [decide_eq_true_eq, Nat.not_lt]
    by_cases hc : cur < v
    · exact le_foldl_max_of_mem _ cur v
        (List.mem_filter.mpr ⟨hv, by simpa using hc⟩)
    · exact Nat.le_trans (Nat.not_lt.mp hc) (le_foldl_max_init _ cur)
  simp [migrateUp, MigState.isDirty, MigState.currentVersion, hempty]

/-- C6: `RunMigrations` is idempotent at the steady state: whenever a
call succeeds, an immediate second call with the same embedded scripts
succeeds and leaves the state (in particular the recorded version)
exactly as the first call left it — being at the latest version is a
no-op, since the Go code treats `migrate.ErrNoChange` as success. -/
theorem runMigrations_idempotent_at_steady_state :
    ∀ (scripts : List Nat) (st st' : MigState),
      RunMigrations scripts st = Except.ok st' →
      RunMigrations scripts st' = Except.ok st' := by
  intro scripts st st' h
  cases hup : migrateUp scripts st with
  | ok stNew =>
    simp only [RunMigrations, hup, Except.ok.injEq] at h
    subst h
    simp only [migrateUp] at hup
    by_cases hd : st.isDirty = true
    · simp [hd] at hup
    · rw [if_neg (by simp [hd])] at hup
      by_cases he :
          (scripts.filter (fun v => st.currentVersion < v)).isEmpty = true
      · rw [if_pos he] at hup
        exact absurd hup (by simp)
      · rw [if_neg he] at hup
        have hst : stNew =
            { record := some
                { version :=
                    (scripts.filter (fun v => st.currentVersion < v)).foldl
                      Nat.max st.currentVersion,
                  dirty := false },
              schema := st.schema
                ++ scripts.filter (fun v => st.currentVersion < v) } :=
          (Except.ok.inj hup).symm
        rw [hst]
        simp [RunMigrations, migrateUp_at_latest]
  | error e =>
    cases e with
    | errNoChange =>
      simp only [RunMigrations, hup, Except.ok.injEq] at h
      subst h
      simp [RunMigrations, hup]
    | errDirty v =>
      simp only [RunMigrations, hup] at h
      exact absurd h (by simp)
    | errNilVersion =>
      simp only [RunMigrations, hup] at h
      exact absurd h (by simp)

/-- C6 witness: applying the embedded script to a fresh database, then
calling `RunMigrations` again, returns the same state with no error. -/
theorem runMigrations_idempotent_witness :
    (RunMigrations embeddedScripts freshMigState
        = Except.ok appliedMigState) ∧
    RunMigrations embeddedScripts appliedMigState
        = Except.ok appliedMigState :=
  ⟨rfl, runMigrations_idempotent_at_steady_state embeddedScripts
      freshMigState appliedMigState rfl⟩

/-- C7: when the persisted migration record is dirty, the engine's `Up`
fails with ErrDirty before touching any script, and `RunMigrations`
surfaces that as an error (ErrDirty is not ErrNoChange), producing no new
database state. -/
theorem runMigrations_fails_fast_when_dirty :
    ∀ (scripts : List Nat) (st : MigState) (v : Nat),
      st.record = some { version := v, dirty := true } →
      migrateUp scripts st = Except.error (MigrateErr.errDirty v) ∧
      RunMigrations scripts st
        = Except.error (GoMigErr.failedToRun (MigrateErr.errDirty v)) := by
  intro scripts st v h
  have hd : st.isDirty = true := by simp [MigState.isDirty, h]
  have hv : st.currentVersion = v := by simp [MigState.currentVersion, h]
  have hup : migrateUp scripts st
      = Except.error (MigrateErr.errDirty v) := by
    simp [migrateUp, hd, hv]
  exact ⟨hup, by simp [RunMigrations, hup]⟩

/-- C7 witness: a dirty record at version 1 makes `RunMigrations` fail
with the wrapped dirty error on the embedded script set. -/
theorem runMigrations_dirty_witness :
    migrateUp embeddedScripts dirtyMigState
        = Except.error (MigrateErr.errDirty 1) ∧
    RunMigrations embeddedScripts dirtyMigState
        = Except.error (GoMigErr.failedToRun (MigrateErr.errDirty 1)) :=
  runMigrations_fails_fast_when_dirty embeddedScripts dirtyMigState 1 rfl

end AutoTransport
